import Mathlib

/-!
Shallow embedding of `src/cli.py` (IGCLI-Python): the session-scoped
concurrent refresh engine of a terminal trading dashboard.

The Python object state (`IGCLI.__init__`) is embedded as the record
`LState`; the per-account configuration dictionary as `Config`, a record
of `Option` fields (a key absent from the dict is `none`, and reading an
absent key is a `KeyError`).  Methods become functions
`LState → LState × Except PyErr Unit`: the returned state carries the
mutations performed before a possible exception, faithfully modelling
Python's mutate-in-place-then-raise behaviour.

The decorator `req_auth` is imported in `cli.py` from `.utils`, whose
source is not part of `src/`; it is modelled from the spec (see its doc
comment below).  Everything else is translated directly from `src/cli.py`.
-/

namespace IGCLI

/-- Python exceptions that the embedded code can raise. -/
inductive PyErr
  | keyError (key : String)
  | indexError
  | attributeError (attr : String)
  | notFoundError
  | badRequestError
deriving DecidableEq, Repr

/-- Accumulator loop implementing Python `str.split()`: split on runs of
whitespace and drop empty pieces.  `acc` holds the current word's
characters in reverse. -/
def splitWsAux : List Char → List Char → List String
  | acc, [] => if acc.isEmpty then [] else [String.mk acc.reverse]
  | acc, c :: cs =>
    if c.isWhitespace then
      if acc.isEmpty then splitWsAux [] cs
      else String.mk acc.reverse :: splitWsAux [] cs
    else splitWsAux (c :: acc) cs

/-- Python `str.split()` with no argument: split on runs of whitespace,
dropping empty pieces (`cli.py` line 277, `buf.text.split()`); in
particular an empty or all-whitespace string splits to `[]`. -/
def pySplitWs (t : String) : List String :=
  splitWsAux [] t.toList

/-- Accumulator loop implementing Python `str.split(' ')`: split on each
single space, keeping empty pieces. -/
def splitSpAux : List Char → List Char → List String
  | acc, [] => [String.mk acc.reverse]
  | acc, c :: cs =>
    if c = ' ' then String.mk acc.reverse :: splitSpAux [] cs
    else splitSpAux (c :: acc) cs

/-- Python `str.split(' ')`: split on each single space, keeping empty
pieces (`cli.py` line 283, `self.config['alias'][arg].split(' ')`),
including `"".split(' ') == ['']` — so an expansion always contributes at
least one token. -/
def pySplitSp (t : String) : List String :=
  splitSpAux [] t.toList

/-- The per-account configuration dictionary (`self.config`).  The source
uses the string keys `refresh`, `currency`, `tracked` and `alias`; a key
absent from the dict is modelled as `none`.  The `alias` value is a dict
from alias name to expansion string, modelled as an association list
(the field is named `aliases` because `alias` is a Lean keyword; the
source dict key is the string `alias`). -/
structure Config where
  refresh : Option Nat
  currency : Option String
  tracked : Option (List String)
  aliases : Option (List (String × String))
deriving DecidableEq, Repr

/-- The empty dict `{}` (`self.config = {}` in `__init__` and `logout`). -/
def emptyConfig : Config :=
  { refresh := none, currency := none, tracked := none, aliases := none }

/-- Python truthiness of the config dict: `{}` is falsy
(`if self.config:` in `load_config`, line 160). -/
def Config.isEmptyDict (c : Config) : Bool :=
  c.refresh.isNone && c.currency.isNone && c.tracked.isNone && c.aliases.isNone

/-- `IGCLI.config_default` (lines 66-70): note that it has **no**
`alias` key. -/
def config_default : Config :=
  { refresh := some 5, currency := some "USD", tracked := some [], aliases := none }

/-- Python dict lookup in the alias table (`arg in self.config['alias']`
and `self.config['alias'][arg]`). -/
def aliasLookup (al : List (String × String)) (k : String) : Option String :=
  (al.find? (fun p => p.1 = k)).map (fun p => p.2)

/-- The mutable object state of one `IGCLI` instance, together with the
module-global `stop_threads` event.  Thread handles record the generation
number of the global event current when they were spawned; `global` is
`some (g, b)` when the module global holds the generation-`g` `Event`
with signalled flag `b`, and `none` when the global has been assigned
`None` (`stop_threads` line 245). -/
structure LState where
  authd : Bool
  id : Option String
  config : Config
  positions_thread : Option Nat
  activity_thread : Option Nat
  orders_thread : Option Nat
  trackers_thread : Option Nat
  global : Option (Nat × Bool)
  nextGen : Nat
  msgs : List String
  errlog : List String
deriving DecidableEq, Repr

/-- The state after `IGCLI.__init__` (lines 72-84) for a session without
auto-login: logged out, empty config dict, no refresh-thread handles, and
the module-level `stop_threads = Event()` (line 35) as generation 0. -/
def initState : LState :=
  { authd := false, id := none, config := emptyConfig,
    positions_thread := none, activity_thread := none,
    orders_thread := none, trackers_thread := none,
    global := some (0, false), nextGen := 1, msgs := [], errlog := [] }

/-- The operator message reported by the auth guard.  Modelled from the
spec: `report(AuthRequiredError)` (§7, §9); the guard's exact message text
lives in `utils.py`, which is not part of `src/`. -/
def authRequiredMsg : String := "AuthRequiredError"

/-- Modelled from the spec: the decorator `req_auth` from `.utils`
(`cli.py` line 20), whose source file is not part of `src/`.  Per spec §9
it is an auth guard — "if not session.authenticated:
report(AuthRequiredError); return" — and per spec §9 the source also has
"per-tick exceptions silently caught with a bare catch-all", which can
only live in this wrapper since `RepeatTimer.run` (lines 56-60) has no
handler around `self.func()`.  So: when unauthenticated, report and skip
the body; otherwise run the body and silently swallow any exception it
raises (keeping the mutations made before the raise).  The wrapper itself
never raises. -/
def req_auth (body : LState → LState × Except PyErr Unit) (s : LState) :
    LState × Except PyErr Unit :=
  if s.authd then
    match body s with
    | (t, Except.ok _) => (t, Except.ok ())
    | (t, Except.error _) => (t, Except.ok ())
  else
    ({ s with msgs := authRequiredMsg :: s.msgs }, Except.ok ())

/-- Alias replacement loop of `IGCLI.parse` (lines 280-286): fold over the
tokens, appending the space-split expansion of a token that is an alias
key and the token itself otherwise.  `self.config['alias']` is evaluated
inside the loop body, so a config dict without an `alias` key raises
`KeyError` on the first token (and an empty token list never touches
it). -/
def expandArgsAux (aliasDict : Option (List (String × String))) :
    List String → List String → Except PyErr (List String)
  | acc, [] => Except.ok acc
  | acc, arg :: rest =>
    match aliasDict with
    | none => Except.error (PyErr.keyError "alias")
    | some al =>
      match aliasLookup al arg with
      | some e => expandArgsAux aliasDict (acc ++ pySplitSp e) rest
      | none => expandArgsAux aliasDict (acc ++ [arg]) rest

/-- The loop entry: `a_args = []` then the fold above. -/
def expandArgs (aliasDict : Option (List (String × String))) (args : List String) :
    Except PyErr (List String) :=
  expandArgsAux aliasDict [] args

/-- The spec's description of single-pass alias expansion, stated in its
own words for comparison with the source's fold: each original token that
is an alias key is replaced by the whitespace-tokenized expansion, and
tokens produced by an expansion are never looked up again. -/
def singlePassSpec (al : List (String × String)) (args : List String) : List String :=
  args.flatMap (fun t =>
    match aliasLookup al t with
    | some e => pySplitSp e
    | none => [t])

/-- The command registry: `getattr(self, '_cmd__' + name)` succeeds
exactly for the `_cmd__*` methods defined on `IGCLI` (lines 401-462). -/
def commandNames : List String :=
  ["update", "api", "login", "save", "track", "stoptrack", "search", "buy", "alias"]

/-- Outcome of command resolution in `parse`. -/
inductive Resolved
  | command (name : String) (args : List String)
  | unrecognised (tok : String)
deriving DecidableEq, Repr

/-- `IGCLI.parse` (lines 275-296) up to command resolution: tokenize the
raw line, expand aliases (raising `KeyError 'alias'` on a config without
that key when there is at least one token), then select `args[0]`.
An empty expanded list raises `IndexError` (`args[0]` inside the `try`,
which catches only `AttributeError`); an unknown first token is caught as
`AttributeError` from `getattr` and reported via `msg_out`. -/
def parse (s : LState) (text : String) : LState × Except PyErr Resolved :=
  match expandArgs s.config.aliases (pySplitWs text) with
  | Except.error e => (s, Except.error e)
  | Except.ok [] => (s, Except.error PyErr.indexError)
  | Except.ok (cmd :: rest) =>
    if commandNames.contains cmd then
      (s, Except.ok (Resolved.command cmd rest))
    else
      ({ s with msgs := ("Unrecognised command: " ++ cmd) :: s.msgs },
       Except.ok (Resolved.unrecognised cmd))

/-- Render `self._id` inside the f-string of `load_config`
(`f'Loading {self._id} configuration...'`). -/
def idStr : Option String → String
  | some i => i
  | none => "None"

/-- The default back-fill loop of `load_config` (lines 161-163): for each
key of `config_default` missing from the loaded dict, insert the default.
`config_default` has no `alias` key, so the alias table is never
back-filled. -/
def backfillDefaults (c : Config) : Config :=
  { c with
    refresh := (match c.refresh with | none => config_default.refresh | some r => some r),
    currency := (match c.currency with | none => config_default.currency | some cu => some cu),
    tracked := (match c.tracked with | none => config_default.tracked | some t => some t) }

/-- The trailing `msg_out` of `load_config` (lines 166-168): its f-string
reads `config['refresh']`, `config['currency']` and `config['tracked']`
in that order, raising `KeyError` at the first absent key. -/
def load_config_msg (s : LState) : LState × Except PyErr Unit :=
  match s.config.refresh with
  | none => (s, Except.error (PyErr.keyError "refresh"))
  | some r =>
    match s.config.currency with
    | none => (s, Except.error (PyErr.keyError "currency"))
    | some cu =>
      match s.config.tracked with
      | none => (s, Except.error (PyErr.keyError "tracked"))
      | some t =>
        ({ s with msgs :=
            ("... Refresh rate: " ++ toString r ++ " s\n... Currency: " ++ cu
              ++ "\n... Added " ++ toString t.length ++ " trackers") :: s.msgs },
         Except.ok ())

/-- Body of `IGCLI.load_config` (lines 153-168).  `store` models the
parsed YAML file: the association from account id to stored config dict;
an empty list models a file whose `yaml.safe_load` is falsy (`None` or
`{}`).  Note the source's `if self.config:` guard: when the store is
truthy but has no entry for this account, `loaded.get(self._id, {})`
yields the falsy `{}` and the default back-fill loop is skipped
entirely. -/
def load_config_body (store : List (String × Config)) (s : LState) :
    LState × Except PyErr Unit :=
  let s1 := { s with msgs := ("Loading " ++ idStr s.id ++ " configuration...") :: s.msgs }
  if store.isEmpty then
    load_config_msg { s1 with config := config_default }
  else
    let cfg :=
      match s1.id with
      | some i =>
        (match store.find? (fun p => p.1 = i) with
         | some p => p.2
         | none => emptyConfig)
      | none => emptyConfig
    let cfg2 := if cfg.isEmptyDict then cfg else backfillDefaults cfg
    load_config_msg { s1 with config := cfg2 }

/-- `IGCLI.load_config` as invoked: the body behind the `req_auth`
decorator. -/
def load_config (store : List (String × Config)) (s : LState) : LState :=
  (req_auth (load_config_body store) s).1

/-- Body of `IGCLI.start_threads` (lines 212-235).  The guard checks only
`positions_thread` and `trackers_thread`; when it passes, a fresh `Event`
is minted only if the module global is `None`, and then the four
`RepeatTimer` constructors each read `self.config['refresh']` — a
`KeyError` there leaves the handles untouched (but a mint already
performed stands).  Handles record the generation of the global event
under which they were spawned. -/
def start_threads_body (s : LState) : LState × Except PyErr Unit :=
  if s.positions_thread.isSome && s.trackers_thread.isSome then
    ({ s with errlog := "Threads already running!" :: s.errlog }, Except.ok ())
  else
    let sg :=
      match s.global with
      | none => { s with global := some (s.nextGen, false), nextGen := s.nextGen + 1 }
      | some _ => s
    match sg.config.refresh with
    | none => (sg, Except.error (PyErr.keyError "refresh"))
    | some _ =>
      let g := match sg.global with | some p => p.1 | none => 0
      ({ sg with positions_thread := some g, activity_thread := some g,
                 orders_thread := some g, trackers_thread := some g },
       Except.ok ())

/-- `IGCLI.start_threads` as invoked (behind `req_auth`). -/
def start_threads (s : LState) : LState :=
  (req_auth start_threads_body s).1

/-- Body of `IGCLI.stop_threads` (lines 237-245): `stop_threads.set()` on
the module global (raising `AttributeError` on `None` if the global was
already nulled), then the four handles are dropped and the global is
assigned `None`. -/
def stop_threads_body (s : LState) : LState × Except PyErr Unit :=
  match s.global with
  | none => (s, Except.error (PyErr.attributeError "set"))
  | some _ =>
    ({ s with global := none,
              positions_thread := none, activity_thread := none,
              orders_thread := none, trackers_thread := none },
     Except.ok ())

/-- `IGCLI.stop_threads` as invoked (behind `req_auth`). -/
def stop_threads (s : LState) : LState :=
  (req_auth stop_threads_body s).1

/-- Body of `IGCLI.restart_threads` (lines 247-250): calls the decorated
`stop_threads` then the decorated `start_threads`. -/
def restart_threads_body (s : LState) : LState × Except PyErr Unit :=
  (start_threads (stop_threads s), Except.ok ())

/-- `IGCLI.restart_threads` as invoked (behind `req_auth`). -/
def restart_threads (s : LState) : LState :=
  (req_auth restart_threads_body s).1

/-- Body of `IGCLI.logout` (lines 204-210): clears `_id` (and the private
key/password attributes, not otherwise read) and the config dict, then
calls `self.stop_treads()` — a misspelling of `stop_threads`, so attribute
lookup raises `AttributeError` and the session is never transitioned: the
token is not signalled, the handles are kept, and `authd` stays `True`. -/
def logout_body (s : LState) : LState × Except PyErr Unit :=
  ({ s with id := none, config := emptyConfig },
   Except.error (PyErr.attributeError "stop_treads"))

/-- `IGCLI.logout` as invoked (behind `req_auth`). -/
def logout (s : LState) : LState :=
  (req_auth logout_body s).1

/-- `IGCLI.login` (lines 194-202): on client success set `authd`, record
the identifier, load the config and start the threads; on failure return
with no state change.  `ok` is the external client's answer. -/
def login (ok : Bool) (identifier : String) (store : List (String × Config))
    (s : LState) : LState :=
  if ok then
    start_threads (load_config store { s with authd := true, id := some identifier })
  else s

/-- `RepeatTimer.run` (lines 56-60): `while not stop_threads.wait(self.interval):
self.func()`.  `fuel` counts the ticks on which the wait times out before
the event is observed signalled; an exception escaping `self.func()`
propagates out of `run` and permanently kills the timer thread. -/
def RepeatTimer.run (func : LState → LState × Except PyErr Unit) :
    Nat → LState → LState × Except PyErr Unit
  | 0, s => (s, Except.ok ())
  | Nat.succ n, s =>
    match func s with
    | (t, Except.ok _) => RepeatTimer.run func n t
    | (t, Except.error e) => (t, Except.error e)

/-- One step of the wrapped refresh action: the state reached after a
single tick of a `req_auth`-decorated action. -/
def reqAuthStep (body : LState → LState × Except PyErr Unit) (s : LState) : LState :=
  (req_auth body s).1

/-- Answers of the external client's `get_market` (spec §6: it fails with
`NotFoundError` or `BadRequestError` on an unknown epic; both exception
classes are imported by `cli.py` line 18). -/
inductive ClientErr
  | notFound
  | badRequest
deriving DecidableEq, Repr

/-- Body of `IGCLI.add_tracker` (lines 262-268): validate the epic via
`client.get_market`, then append it to `config['tracked']`; only
`NotFoundError` is caught and reported, a `BadRequestError` propagates
out of the body (and a missing `tracked` key would raise `KeyError`
after a successful validation). -/
def add_tracker_body (getMarket : String → Except ClientErr Unit) (tracker : String)
    (s : LState) : LState × Except PyErr Unit :=
  match getMarket tracker with
  | Except.ok _ =>
    (match s.config.tracked with
     | none => (s, Except.error (PyErr.keyError "tracked"))
     | some ts =>
       ({ s with config := { s.config with tracked := some (ts ++ [tracker]) } },
        Except.ok ()))
  | Except.error ClientErr.notFound =>
    ({ s with msgs := ("Unable to find market: " ++ tracker) :: s.msgs },
     Except.ok ())
  | Except.error ClientErr.badRequest =>
    (s, Except.error PyErr.badRequestError)

/-- `IGCLI.add_tracker` as invoked (behind `req_auth`). -/
def add_tracker (getMarket : String → Except ClientErr Unit) (tracker : String)
    (s : LState) : LState :=
  (req_auth (add_tracker_body getMarket tracker) s).1

/-- The loop of `IGCLI._cmd__track` (lines 432-433): call the decorated
`add_tracker` on each argument in order. -/
def trackFold (getMarket : String → Except ClientErr Unit) (args : List String)
    (s : LState) : LState :=
  args.foldl (fun t a => add_tracker getMarket a t) s

/-- `IGCLI._cmd__track` (lines 431-434): add each epic, then report. -/
def cmd_track (getMarket : String → Except ClientErr Unit) (args : List String)
    (s : LState) : LState :=
  let t := trackFold getMarket args s
  { t with msgs := "Added tracked market(s)" :: t.msgs }

/-- `true` exactly when the client accepted the epic. -/
def acceptedB (r : Except ClientErr Unit) : Bool :=
  match r with
  | Except.ok _ => true
  | Except.error _ => false

/-- `true` exactly when the client rejected the epic with `NotFoundError`. -/
def notFoundB (r : Except ClientErr Unit) : Bool :=
  match r with
  | Except.error ClientErr.notFound => true
  | _ => false

/-- One element of the `marketDetails` list returned by
`client.get_markets` in `update_trackers` (lines 366-374): the instrument
name and the four snapshot prices.  A price the source would render as
`-` via `x or '-'` (a missing, `None`, value) is `none`; a present,
non-falsy value is carried as its already-rendered numeral string.  (The
source's `or '-'` would also turn a present value of `0` into `-`, a
falsiness quirk no claim depends on.) -/
structure Market where
  name : String
  low : Option String
  high : Option String
  bid : Option String
  offer : Option String
deriving DecidableEq, Repr

/-- Python `'{:>w}'` right-justification (no truncation of longer
strings). -/
def padL (w : Nat) (str : String) : String :=
  String.mk (List.replicate (w - str.length) ' ') ++ str

/-- Python `'{:w}'` left-justification. -/
def padR (w : Nat) (str : String) : String :=
  str ++ String.mk (List.replicate (w - str.length) ' ')

/-- Python `'{:-^60}'` centering with `-` fill (extra fill on the right
when odd). -/
def centerFill (w : Nat) (fill : Char) (str : String) : String :=
  let tot := w - str.length
  let l := tot / 2
  String.mk (List.replicate l fill) ++ str ++ String.mk (List.replicate (tot - l) fill)

/-- `x or '-'` on a snapshot field. -/
def orDash : Option String → String
  | some v => v
  | none => "-"

/-- One formatted line of `update_trackers` (line 369-374):
`'{name:15} || {low:>9} | {high:>9} || {bid:>9} | {offer:>9}'`. -/
def fmtTrackerLine (m : Market) : String :=
  padR 15 m.name ++ " || " ++ padL 9 (orDash m.low) ++ " | " ++ padL 9 (orDash m.high)
    ++ " || " ++ padL 9 (orDash m.bid) ++ " | " ++ padL 9 (orDash m.offer)

/-- The header banner of the trackers buffer: `f"{' TRACKERS ':-^60}\n"`. -/
def trackersHeader : String :=
  centerFill 60 '-' " TRACKERS " ++ "\n"

/-- The buffer written by `IGCLI.update_trackers` (lines 363-378).
`tracked` is `self.config['tracked']` and `markets` is the
`marketDetails` list answered by the external client for that request.
Note the source's loop: it iterates over the **returned** list
(`enumerate(markets)`) but decides the trailing newline by comparing the
index against `len(self.config['tracked'])`. -/
def update_trackers_buf (tracked : List String) (markets : List Market) : String :=
  trackersHeader ++
    String.join (markets.enum.map (fun p =>
      fmtTrackerLine p.2 ++ (if p.1 + 1 ≠ tracked.length then "\n" else "")))

end IGCLI

namespace GenModel

/-!
Interleaving model for the stop/start generation race.

`RepeatTimer.run` (`cli.py` lines 56-60) re-reads the module-global name
`stop_threads` on every loop iteration; `IGCLI.stop_threads` signals that
event and then assigns the global `None`; `IGCLI.start_threads` mints a
fresh `Event` only when the global is `None` and spawns four timer
threads.  Each scheduler action below is one contiguous piece of that
source code executed atomically (coarsening atomicity only removes
interleavings, so any bad trace exhibited here is a real trace).  A
thread's `gen` field is a ghost tag: the generation of the global event
current when it was spawned.
-/

/-- Observable events of a trace: a generation's four tasks started, a
generation's event signalled-and-nulled by `stop_threads`, and one
invocation of `self.func()` by a thread created under a generation. -/
inductive Ev
  | started (g : Nat)
  | stopped (g : Nat)
  | invoked (g : Nat)
deriving DecidableEq, Repr

/-- Program counter of a `RepeatTimer` thread inside its `run` loop:
about to evaluate `stop_threads.wait(self.interval)`, about to call
`self.func()`, exited the loop, or dead of an uncaught exception
(`None.wait`). -/
inductive TPC
  | atWait
  | atCall
  | exited
  | crashed
deriving DecidableEq, Repr

/-- One timer thread: its creation generation (ghost) and program
counter. -/
structure TSt where
  gen : Nat
  pc : TPC
deriving DecidableEq, Repr

/-- Global system state: the module-global `stop_threads`
(`some (g, signalled)` or `None`), the next fresh generation number, the
spawned threads, and the event log (most recent first). -/
structure Sys where
  globalTok : Option (Nat × Bool)
  nextGen : Nat
  threads : List TSt
  events : List Ev
deriving DecidableEq, Repr

/-- Module import time: `stop_threads = Event()` (line 35), generation
0, unsignalled; no timer threads yet. -/
def initSys : Sys :=
  { globalTok := some (0, false), nextGen := 1, threads := [], events := [] }

/-- A thread at the loop head evaluates `stop_threads.wait(interval)` and
the wait ends now: on `None` it crashes (`AttributeError`), on a
signalled event it leaves the loop, and on a timeout with the event
unsignalled it proceeds to `self.func()`. -/
def doWake (tid : Nat) (s : Sys) : Sys :=
  match s.threads.get? tid with
  | some t =>
    if t.pc = TPC.atWait then
      match s.globalTok with
      | none => { s with threads := s.threads.set tid { t with pc := TPC.crashed } }
      | some (_, true) => { s with threads := s.threads.set tid { t with pc := TPC.exited } }
      | some (_, false) => { s with threads := s.threads.set tid { t with pc := TPC.atCall } }
    else s
  | none => s

/-- A thread past its wait invokes `self.func()` (line 60) and returns to
the loop head. -/
def doCall (tid : Nat) (s : Sys) : Sys :=
  match s.threads.get? tid with
  | some t =>
    if t.pc = TPC.atCall then
      { s with threads := s.threads.set tid { t with pc := TPC.atWait },
               events := Ev.invoked t.gen :: s.events }
    else s
  | none => s

/-- The main thread runs `IGCLI.stop_threads` (lines 237-245):
`stop_threads.set()`, handles dropped, global assigned `None`. -/
def doStop (s : Sys) : Sys :=
  match s.globalTok with
  | some (g, _) => { s with globalTok := none, events := Ev.stopped g :: s.events }
  | none => s

/-- The main thread runs the spawn part of `IGCLI.start_threads` (lines
218-235) on an instance whose handles were cleared (so the
already-running guard passed): mint a fresh `Event` only if the global is
`None`, then create and start four `RepeatTimer` threads — which read the
global by name, not a captured token. -/
def doStart (s : Sys) : Sys :=
  match s.globalTok with
  | some (g, b) =>
    { s with globalTok := some (g, b),
             threads := s.threads ++ List.replicate 4 { gen := g, pc := TPC.atWait },
             events := Ev.started g :: s.events }
  | none =>
    { s with globalTok := some (s.nextGen, false), nextGen := s.nextGen + 1,
             threads := s.threads ++ List.replicate 4 { gen := s.nextGen, pc := TPC.atWait },
             events := Ev.started s.nextGen :: s.events }

/-- Scheduler actions. -/
inductive Act
  | wake (tid : Nat)
  | call (tid : Nat)
  | stop
  | start
deriving DecidableEq, Repr

/-- Execute one scheduled atomic action. -/
def stepAct : Act → Sys → Sys
  | Act.wake tid, s => doWake tid s
  | Act.call tid, s => doCall tid s
  | Act.stop, s => doStop s
  | Act.start, s => doStart s

/-- Execute a schedule from a state. -/
def exec (sched : List Act) (s : Sys) : Sys :=
  sched.foldl (fun t a => stepAct a t) s

/-- The event log in chronological order. -/
def chron (s : Sys) : List Ev :=
  s.events.reverse

/-- Scan a chronological log for a stale invocation: an action invocation
by a thread of generation `g` occurring after generation `g` was stopped
and after a strictly newer generation's tasks were started. -/
def staleAux : List Nat → List Nat → List Ev → Bool
  | _, _, [] => false
  | started, stopped, Ev.started g :: r => staleAux (g :: started) stopped r
  | started, stopped, Ev.stopped g :: r => staleAux started (g :: stopped) r
  | started, stopped, Ev.invoked g :: r =>
    (stopped.contains g && started.any (fun g2 => g < g2)) || staleAux started stopped r

/-- Whether a chronological log contains a stale invocation. -/
def staleInvocation (l : List Ev) : Bool :=
  staleAux [] [] l

/-- The racing schedule: the four generation-0 tasks start; one of them
times out of its wait and is about to call its action; the operator stops
and immediately restarts (fresh generation-1 event, four new tasks); the
old task then performs its pending `self.func()` call. -/
def badSched : List Act :=
  [Act.start, Act.wake 0, Act.stop, Act.start, Act.call 0]

end GenModel

namespace IGCLI

/-- The session-lifecycle methods of `IGCLI` as operator-triggerable
operations on the instance state (each is the corresponding decorated
method; `loginOp` carries the external client's answer and the persisted
store read by `load_config`). -/
inductive Op
  | startOp
  | stopOp
  | restartOp
  | logoutOp
  | loginOp (ok : Bool) (identifier : String) (store : List (String × Config))

/-- Run one lifecycle operation. -/
def stepOp : Op → LState → LState
  | Op.startOp, s => start_threads s
  | Op.stopOp, s => stop_threads s
  | Op.restartOp, s => restart_threads s
  | Op.logoutOp, s => logout s
  | Op.loginOp ok i st, s => login ok i st s

/-- Run a sequence of lifecycle operations. -/
def runOps (ops : List Op) (s : LState) : LState :=
  ops.foldl (fun t o => stepOp o t) s

/-- At most one set of the four refresh tasks is recorded on the
instance: either all four handles are `None`, or all four hold tasks of
one and the same generation. -/
def handleInv (s : LState) : Bool :=
  match s.positions_thread, s.activity_thread, s.orders_thread, s.trackers_thread with
  | none, none, none, none => true
  | some a, some b, some c, some d => a = b && b = c && c = d
  | _, _, _, _ => false

/-- A concrete authenticated session state with the four generation-0
refresh tasks running and a fully populated config. -/
def sAuth : LState :=
  { authd := true, id := some "acct",
    config := { refresh := some 5, currency := some "USD",
                tracked := some ["AAA"], aliases := some [] },
    positions_thread := some 0, activity_thread := some 0,
    orders_thread := some 0, trackers_thread := some 0,
    global := some (0, false), nextGen := 1, msgs := [], errlog := [] }

/-- A refresh action that raises on every tick (`KeyError 'boom'`)
without touching the state. -/
def badBody (s : LState) : LState × Except PyErr Unit :=
  (s, Except.error (PyErr.keyError "boom"))

/-- A concrete external client for the `track` batch: it rejects the epic
`"bad"` with `BadRequestError`, the epic `"nf"` with `NotFoundError`, and
accepts everything else. -/
def gmW (epic : String) : Except ClientErr Unit :=
  if epic = "bad" then Except.error ClientErr.badRequest
  else if epic = "nf" then Except.error ClientErr.notFound
  else Except.ok ()

/-- A concrete alias table: `a -> "b c"` where `b` is itself an alias
(`b -> "x"`). -/
def aliasTableC5 : List (String × String) :=
  [("a", "b c"), ("b", "x")]

/-- An authenticated state whose config carries `aliasTableC5`. -/
def sAlias : LState :=
  { sAuth with config := { sAuth.config with aliases := some aliasTableC5 } }

/-- A stored config entry for a different account, used to exhibit the
skipped back-fill. -/
def cfgOther : Config :=
  { refresh := some 9, currency := some "GBP", tracked := some ["ZZZ"], aliases := some [] }

/-- An authenticated state immediately after `login` set
`authd`/`_id` but before `load_config` ran: config is still the empty
dict. -/
def sFreshLogin : LState :=
  { authd := true, id := some "acct", config := emptyConfig,
    positions_thread := none, activity_thread := none,
    orders_thread := none, trackers_thread := none,
    global := some (0, false), nextGen := 1, msgs := [], errlog := [] }

/-- An authenticated state with an empty tracked-market list, for the
`track` batch evaluations. -/
def sTrack : LState :=
  { sAuth with config := { sAuth.config with tracked := some [] } }

/-- The tracked-market list for the trackers-buffer evaluation: two
epics. -/
def trackedC9 : List String := ["AAA", "BBB"]

/-- The client's `marketDetails` answer for that tick: only one snapshot
came back (e.g. one epic failed server-side), with a missing `offer`. -/
def marketsC9 : List Market :=
  [{ name := "Gold", low := some "1", high := some "2", bid := some "3", offer := none }]

/-- The `req_auth` wrapper never raises: its result's exception component
is always `ok`. -/
theorem reqAuth_snd (body : LState → LState × Except PyErr Unit) (s : LState) :
    (req_auth body s).2 = Except.ok () := by
  unfold req_auth
  cases h : s.authd with
  | false => simp [h]
  | true =>
    simp only [h, if_true]
    rcases body s with ⟨t, r⟩
    cases r <;> rfl

/-- On an authenticated state the wrapper's resulting state is the
body's resulting state (mutations before a swallowed raise included). -/
theorem reqAuth_fst_auth (body : LState → LState × Except PyErr Unit) (s : LState)
    (h : s.authd = true) : (req_auth body s).1 = (body s).1 := by
  unfold req_auth
  simp only [h, if_true]
  rcases body s with ⟨t, r⟩
  cases r <;> rfl

/-- On an unauthenticated state the wrapper only reports. -/
theorem reqAuth_fst_unauth (body : LState → LState × Except PyErr Unit) (s : LState)
    (h : s.authd = false) : (req_auth body s).1 = { s with msgs := authRequiredMsg :: s.msgs } := by
  simp [req_auth, h]

/-- C1: refuted as stated — the claim asserts that once `stop()` has been
called and a new generation N+1 of refresh tasks started, no refresh
action created under generation N can ever be invoked again.  On the
source this fails: `RepeatTimer.run` re-reads the shared module-global
`stop_threads` each iteration instead of holding a per-generation token,
so a generation-0 task that had already passed its wait when the operator
stopped and restarted invokes its action after generation 1 exists.  The
concrete schedule `GenModel.badSched` produces the chronological event
log `[started 0, stopped 0, started 1, invoked 0]`, a stale generation-0
invocation after generation 1 started. -/
theorem c1_stale_invocation_trace :
    GenModel.chron (GenModel.exec GenModel.badSched GenModel.initSys) =
      [GenModel.Ev.started 0, GenModel.Ev.stopped 0,
       GenModel.Ev.started 1, GenModel.Ev.invoked 0] ∧
    GenModel.staleInvocation
      (GenModel.chron (GenModel.exec GenModel.badSched GenModel.initSys)) = true := by
  exact ⟨rfl, rfl⟩

/-- C3: refuted as stated — the claim asserts that invoking an
auth-required command while unauthenticated reports an auth-required
message and never raises.  In every unauthenticated state the config dict
is `{}` (it starts so and `logout` resets it so), and `parse` evaluates
`self.config['alias']` on the first token, so entering `update` while
logged out raises an uncaught `KeyError 'alias'` before any auth check:
no message is reported (the config is indeed left unchanged). -/
theorem c3_unauth_parse_keyerror :
    parse initState "update" = (initState, Except.error (PyErr.keyError "alias")) ∧
    initState.msgs = [] ∧ initState.config = emptyConfig ∧ initState.authd = false := by
  exact ⟨rfl, rfl, rfl, rfl⟩

/-- C4: refuted as stated — the claim says `logout()` in the
Authenticated state signals the token, discards the four task handles,
clears Config and accountId, and transitions to LoggedOut.  The source's
`logout` calls `self.stop_treads()` — a misspelling — so after clearing
`_id` and the config dict it raises `AttributeError` (swallowed by the
auth wrapper): the session stays authenticated, the four handles are
kept, and the global event is never signalled.  Only the Config and
accountId clearing happens. -/
theorem c4_logout_typo :
    (logout_body sAuth).2 = Except.error (PyErr.attributeError "stop_treads") ∧
    (logout sAuth).authd = true ∧
    (logout sAuth).positions_thread = some 0 ∧
    (logout sAuth).activity_thread = some 0 ∧
    (logout sAuth).orders_thread = some 0 ∧
    (logout sAuth).trackers_thread = some 0 ∧
    (logout sAuth).global = some (0, false) ∧
    (logout sAuth).config = emptyConfig ∧
    (logout sAuth).id = none := by
  refine ⟨rfl, rfl, rfl, rfl, rfl, rfl, rfl, rfl, rfl⟩

/-- C8: refuted as stated — the claim says every absent field is
back-filled with its default (refresh 5, currency USD, tracked [],
aliases {}) whether the store is empty, lacks the account, or has a
partial entry.  On the source: (1) `config_default` has no `alias` key,
so the alias table is never back-filled in any path (here: empty store);
(2) when the store is non-empty but has no entry for the account,
`loaded.get(id, {})` is the falsy `{}`, the `if self.config:` guard skips
the back-fill loop entirely, the resulting config is empty, and the
closing `msg_out` raises `KeyError 'refresh'` (swallowed by the auth
wrapper). -/
theorem c8_defaults_not_backfilled :
    (load_config [] sFreshLogin).config =
      { refresh := some 5, currency := some "USD", tracked := some [], aliases := none } ∧
    (load_config [] sFreshLogin).config.aliases = none ∧
    (load_config [("other", cfgOther)] sFreshLogin).config = emptyConfig ∧
    (load_config_body [("other", cfgOther)] sFreshLogin).2 =
      Except.error (PyErr.keyError "refresh") := by
  refine ⟨rfl, rfl, rfl, rfl⟩

/-- C9: refuted as stated — the claim says the trackers buffer has
exactly one line per tracked market, iterated in the order of
`Config.trackedMarkets`.  The source iterates the client's returned
`marketDetails` list and compares the index against
`len(self.config['tracked'])`: with two tracked markets and a one-element
response the buffer holds the header and a single market line (with a
dangling trailing newline, since `i+1 != len(tracked)` also misfires); a
missing `offer` does render as `-`. -/
theorem c9_tracker_line_mismatch :
    update_trackers_buf trackedC9 marketsC9 =
      "------------------------- TRACKERS -------------------------\nGold            ||         1 |         2 ||         3 |         -\n" ∧
    trackedC9.length = 2 ∧ marketsC9.length = 1 := by
  refine ⟨rfl, rfl, rfl⟩

/-- C10: confirmed — for every raw input line whose whitespace split and
alias expansion yield no tokens (e.g. an empty or all-whitespace line,
on which the expansion loop body never runs), `parse` raises an uncaught
`IndexError` selecting `args[0]` (the `try` catches only
`AttributeError`), with no operator message and no state change. -/
theorem c10_empty_line_index_error (s : LState) (text : String)
    (h : expandArgs s.config.aliases (pySplitWs text) = Except.ok []) :
    parse s text = (s, Except.error PyErr.indexError) := by
  unfold parse
  rw [h]

/-- Witness for C10 at the all-whitespace line `"   "` on the initial
(logged-out, alias-less) state. -/
theorem c10_empty_line_index_error_witness :
    parse initState "   " = (initState, Except.error PyErr.indexError) := by
  exact c10_empty_line_index_error initState "   " rfl

/-- C2 counterexample: the claim as stated says an error raised by the
action during a tick is caught **and logged**.  Running the timer loop
for three ticks over an action that raises `KeyError 'boom'` on every
tick, the loop does survive every tick (the wrapper swallows the raise),
but the final state is bit-for-bit the starting state: the error log and
the operator message log are both still empty — nothing was logged. -/
theorem c2_error_not_logged :
    badBody sAuth = (sAuth, Except.error (PyErr.keyError "boom")) ∧
    RepeatTimer.run (req_auth badBody) 3 sAuth = (sAuth, Except.ok ()) ∧
    sAuth.errlog = [] ∧ sAuth.msgs = [] := by
  refine ⟨rfl, rfl, rfl, rfl⟩

/-- C2 amended: any error raised by the action during a tick is caught —
silently swallowed by the `req_auth` wrapper around every refresh action,
without being logged — and the periodic loop continues: for every action
body, every tick budget and every state, the loop never exits through an
exception and performs exactly one wrapped action invocation per tick
(the result is the n-fold iterate of the wrapped step). -/
theorem c2_amended_errors_swallowed_loop_continues
    (body : LState → LState × Except PyErr Unit) (n : Nat) (s : LState) :
    RepeatTimer.run (req_auth body) n s = ((reqAuthStep body)^[n] s, Except.ok ()) := by
  induction n generalizing s with
  | zero => simp [RepeatTimer.run, Function.iterate_zero]
  | succ n ih =>
    have h2 := reqAuth_snd body s
    rcases h : req_auth body s with ⟨t, r⟩
    rw [h] at h2
    simp only at h2
    subst h2
    have hrun : RepeatTimer.run (req_auth body) (n + 1) s =
        RepeatTimer.run (req_auth body) n t := by
      simp [RepeatTimer.run, h]
    rw [hrun, ih t, Function.iterate_succ_apply]
    have hstep : reqAuthStep body s = t := by simp [reqAuthStep, h]
    rw [hstep]

/-- Single-pass characterization of the source's alias-replacement fold:
with an alias table present, the fold equals one lookup per **original**
token, expansion tokens spliced in and never re-examined. -/
theorem expandArgsAux_some (al : List (String × String)) (args : List String) :
    ∀ acc : List String,
      expandArgsAux (some al) acc args = Except.ok (acc ++ singlePassSpec al args) := by
  induction args with
  | nil => intro acc; simp [expandArgsAux, singlePassSpec]
  | cons a l ih =>
    intro acc
    cases h : aliasLookup al a with
    | some e => simp [expandArgsAux, h, ih, singlePassSpec, List.append_assoc]
    | none => simp [expandArgsAux, h, ih, singlePassSpec, List.append_assoc]

/-- C5: confirmed — alias expansion in `parse` is single-pass and not
recursive.  First conjunct: for every alias table and token list, the
source's replacement loop equals a single lookup per original token with
the whitespace-tokenized expansion spliced in place (tokens produced by
an expansion are never looked up again).  Remaining conjuncts: with
aliases `a -> "b c"` and `b -> "x"` (so `b` is itself an alias key), the
input line `a` resolves the handler for token `b` — the reported message
is `Unrecognised command: b`, not `x` and not a re-expansion. -/
theorem c5_alias_single_pass :
    (∀ (al : List (String × String)) (args : List String),
        expandArgs (some al) args = Except.ok (singlePassSpec al args)) ∧
    aliasLookup aliasTableC5 "b" = some "x" ∧
    parse sAlias "a" =
      ({ sAlias with msgs := "Unrecognised command: b" :: sAlias.msgs },
       Except.ok (Resolved.unrecognised "b")) := by
  refine ⟨?_, rfl, rfl⟩
  intro al args
  simpa [expandArgs] using expandArgsAux_some al args []

/-- `add_tracker` on an accepted epic appends it to the tracked list. -/
theorem add_tracker_auth_ok (gm : String → Except ClientErr Unit) (a : String)
    (s : LState) (ts : List String) (h : s.authd = true)
    (ht : s.config.tracked = some ts) (hg : gm a = Except.ok ()) :
    add_tracker gm a s = { s with config := { s.config with tracked := some (ts ++ [a]) } } := by
  unfold add_tracker
  rw [reqAuth_fst_auth _ _ h]
  simp [add_tracker_body, hg, ht]

/-- `add_tracker` on a `NotFoundError` rejection only reports. -/
theorem add_tracker_auth_nf (gm : String → Except ClientErr Unit) (a : String)
    (s : LState) (h : s.authd = true)
    (hg : gm a = Except.error ClientErr.notFound) :
    add_tracker gm a s = { s with msgs := ("Unable to find market: " ++ a) :: s.msgs } := by
  unfold add_tracker
  rw [reqAuth_fst_auth _ _ h]
  simp [add_tracker_body, hg]

/-- `add_tracker` on a `BadRequestError` rejection: the error escapes the
`NotFoundError`-only handler, is swallowed by the wrapper, and the state
is unchanged — no message, no append. -/
theorem add_tracker_auth_br (gm : String → Except ClientErr Unit) (a : String)
    (s : LState) (h : s.authd = true)
    (hg : gm a = Except.error ClientErr.badRequest) :
    add_tracker gm a s = s := by
  unfold add_tracker
  rw [reqAuth_fst_auth _ _ h]
  simp [add_tracker_body, hg]

/-- The `_cmd__track` loop processed to the end: accepted epics are
appended in order, `NotFoundError` rejections each leave one message,
`BadRequestError` rejections change nothing, and no rejection stops the
fold. -/
theorem trackFold_eq (gm : String → Except ClientErr Unit) (args : List String) :
    ∀ (s : LState) (ts : List String), s.authd = true → s.config.tracked = some ts →
      trackFold gm args s =
        { s with
          config := { s.config with
            tracked := some (ts ++ args.filter (fun a => acceptedB (gm a))) },
          msgs := ((args.filter (fun a => notFoundB (gm a))).map
              (fun a => "Unable to find market: " ++ a)).reverse ++ s.msgs } := by
  induction args with
  | nil =>
    intro s ts h ht
    simp only [trackFold, List.foldl_nil, List.filter_nil, List.map_nil,
      List.reverse_nil, List.nil_append, List.append_nil]
    rw [← ht]
  | cons a l ih =>
    intro s ts h ht
    have hfold : trackFold gm (a :: l) s = trackFold gm l (add_tracker gm a s) := by
      simp [trackFold]
    cases hga : gm a with
    | ok u =>
      cases u
      rw [hfold, add_tracker_auth_ok gm a s ts h ht hga]
      have ih2 := ih { s with config := { s.config with tracked := some (ts ++ [a]) } }
        (ts ++ [a]) h rfl
      rw [ih2]
      simp [List.filter_cons, hga, acceptedB, notFoundB, List.append_assoc]
    | error ce =>
      cases ce with
      | notFound =>
        rw [hfold, add_tracker_auth_nf gm a s h hga]
        have ih2 := ih { s with msgs := ("Unable to find market: " ++ a) :: s.msgs } ts h ht
        rw [ih2]
        simp [List.filter_cons, hga, acceptedB, notFoundB, List.append_assoc]
      | badRequest =>
        rw [hfold, add_tracker_auth_br gm a s h hga]
        rw [ih s ts h ht]
        simp [List.filter_cons, hga, acceptedB, notFoundB]

/-- C6 counterexample: the claim as stated says every epic the client
rejects as unknown is skipped **with a reported message**.  The external
interface (spec §6) lets `get_market` reject an unknown epic with
`BadRequestError` as well as `NotFoundError` — and `_cmd__buy` in the
same file catches exactly `BadRequestError` from the same call.  For the
batch `track e1 bad e2` where the client rejects `bad` with
`BadRequestError`: `bad` is skipped, but the message log holds only the
closing `Added tracked market(s)` — the rejection is never reported (and
without the wrapper's bare catch-all the same error would instead abort
`parse` uncaught; either way the claim fails). -/
theorem c6_badrequest_rejection_unreported :
    gmW "bad" = Except.error ClientErr.badRequest ∧
    (cmd_track gmW ["e1", "bad", "e2"] sTrack).config.tracked = some ["e1", "e2"] ∧
    (cmd_track gmW ["e1", "bad", "e2"] sTrack).msgs = ["Added tracked market(s)"] := by
  refine ⟨rfl, rfl, rfl⟩

/-- C6 amended: each epic of a `track` batch is validated individually
against the external client; an epic rejected with `NotFoundError` is
skipped with an `Unable to find market` message, an epic rejected with
`BadRequestError` is skipped silently (its error escapes the
`NotFoundError`-only handler and is swallowed by the auth wrapper),
every accepted epic is appended to the tracked list in order, and no
rejection aborts the processing of the remaining epics — the batch
always runs to completion and reports `Added tracked market(s)`. -/
theorem c6_amended_track_batch (gm : String → Except ClientErr Unit)
    (args : List String) (s : LState) (ts : List String)
    (h : s.authd = true) (ht : s.config.tracked = some ts) :
    cmd_track gm args s =
      { s with
        config := { s.config with
          tracked := some (ts ++ args.filter (fun a => acceptedB (gm a))) },
        msgs := "Added tracked market(s)" ::
          (((args.filter (fun a => notFoundB (gm a))).map
              (fun a => "Unable to find market: " ++ a)).reverse ++ s.msgs) } := by
  unfold cmd_track
  rw [trackFold_eq gm args s ts h ht]

/-- Witness for C6 amended at the batch `track e1 nf e2` on the concrete
client that rejects `nf` with `NotFoundError`. -/
theorem c6_amended_track_batch_witness :
    cmd_track gmW ["e1", "nf", "e2"] sTrack =
      { sTrack with
        config := { sTrack.config with tracked := some ["e1", "e2"] },
        msgs := ["Added tracked market(s)", "Unable to find market: nf"] } := by
  exact (c6_amended_track_batch gmW ["e1", "nf", "e2"] sTrack [] rfl rfl).trans rfl

/-- `handleInv` reads only the four thread-handle fields. -/
theorem handleInv_congr (s t : LState)
    (h1 : t.positions_thread = s.positions_thread)
    (h2 : t.activity_thread = s.activity_thread)
    (h3 : t.orders_thread = s.orders_thread)
    (h4 : t.trackers_thread = s.trackers_thread) :
    handleInv t = handleInv s := by
  unfold handleInv
  rw [h1, h2, h3, h4]

/-- The trailing message of `load_config` never touches the thread
handles. -/
theorem load_config_msg_handles (s : LState) :
    (load_config_msg s).1.positions_thread = s.positions_thread ∧
    (load_config_msg s).1.activity_thread = s.activity_thread ∧
    (load_config_msg s).1.orders_thread = s.orders_thread ∧
    (load_config_msg s).1.trackers_thread = s.trackers_thread := by
  unfold load_config_msg
  cases hr : s.config.refresh with
  | none => simp
  | some r =>
    cases hc : s.config.currency with
    | none => simp
    | some c =>
      cases ht : s.config.tracked with
      | none => simp
      | some t => simp

/-- `load_config` never touches the thread handles in any of its paths. -/
theorem load_config_handles (store : List (String × Config)) (s : LState) :
    (load_config store s).positions_thread = s.positions_thread ∧
    (load_config store s).activity_thread = s.activity_thread ∧
    (load_config store s).orders_thread = s.orders_thread ∧
    (load_config store s).trackers_thread = s.trackers_thread := by
  unfold load_config
  cases ha : s.authd with
  | false => rw [reqAuth_fst_unauth _ _ ha]; simp
  | true =>
    rw [reqAuth_fst_auth _ _ ha]
    unfold load_config_body
    by_cases he : store.isEmpty
    · simp [he, load_config_msg_handles]
    · simp [he, load_config_msg_handles]

/-- `start_threads` preserves the single-task-set invariant: the guard
blocks a second start, and the spawn path installs four handles of one
generation. -/
theorem handleInv_start (s : LState) (h : handleInv s = true) :
    handleInv (start_threads s) = true := by
  unfold start_threads
  cases ha : s.authd with
  | false => rw [reqAuth_fst_unauth _ _ ha]; exact h
  | true =>
    rw [reqAuth_fst_auth _ _ ha]
    unfold start_threads_body
    cases hb : (s.positions_thread.isSome && s.trackers_thread.isSome) with
    | true => simp only [hb, if_true]; exact h
    | false =>
      simp only [hb, Bool.false_eq_true, if_false]
      cases hgl : s.global with
      | none =>
        cases hr : s.config.refresh with
        | none => simpa [handleInv] using h
        | some r => simp [handleInv]
      | some p =>
        cases hr : s.config.refresh with
        | none => simpa [handleInv] using h
        | some r => simp [handleInv]

/-- `stop_threads` preserves the invariant: either everything is cleared
or (on a nulled global) nothing changes. -/
theorem handleInv_stop (s : LState) (h : handleInv s = true) :
    handleInv (stop_threads s) = true := by
  unfold stop_threads
  cases ha : s.authd with
  | false => rw [reqAuth_fst_unauth _ _ ha]; exact h
  | true =>
    rw [reqAuth_fst_auth _ _ ha]
    unfold stop_threads_body
    cases hgl : s.global with
    | none => simpa [handleInv] using h
    | some p => simp [handleInv]

/-- `logout` never touches the thread handles (its body raises before
reaching any thread logic). -/
theorem handleInv_logout (s : LState) (h : handleInv s = true) :
    handleInv (logout s) = true := by
  unfold logout
  cases ha : s.authd with
  | false => rw [reqAuth_fst_unauth _ _ ha]; exact h
  | true => rw [reqAuth_fst_auth _ _ ha]; exact h

/-- `restart_threads` preserves the invariant (stop then start). -/
theorem handleInv_restart (s : LState) (h : handleInv s = true) :
    handleInv (restart_threads s) = true := by
  unfold restart_threads
  cases ha : s.authd with
  | false => rw [reqAuth_fst_unauth _ _ ha]; exact h
  | true =>
    rw [reqAuth_fst_auth _ _ ha]
    exact handleInv_start _ (handleInv_stop _ h)

/-- `login` preserves the invariant in both the success and failure
paths. -/
theorem handleInv_login (ok : Bool) (i : String) (store : List (String × Config))
    (s : LState) (h : handleInv s = true) :
    handleInv (login ok i store s) = true := by
  unfold login
  cases ok with
  | false => simpa using h
  | true =>
    simp only [if_true]
    apply handleInv_start
    have hl := load_config_handles store { s with authd := true, id := some i }
    rw [handleInv_congr { s with authd := true, id := some i }
      (load_config store { s with authd := true, id := some i }) hl.1 hl.2.1 hl.2.2.1 hl.2.2.2]
    exact h

/-- Every lifecycle operation preserves the single-task-set invariant. -/
theorem stepOp_handleInv (o : Op) (s : LState) (h : handleInv s = true) :
    handleInv (stepOp o s) = true := by
  cases o with
  | startOp => exact handleInv_start s h
  | stopOp => exact handleInv_stop s h
  | restartOp => exact handleInv_restart s h
  | logoutOp => exact handleInv_logout s h
  | loginOp ok i st => exact handleInv_login ok i st s h

/-- The invariant holds along every sequence of lifecycle operations. -/
theorem runOps_handleInv (ops : List Op) :
    ∀ s : LState, handleInv s = true → handleInv (runOps ops s) = true := by
  induction ops with
  | nil => intro s h; simpa [runOps] using h
  | cons o rest ih =>
    intro s h
    have hstep : runOps (o :: rest) s = runOps rest (stepOp o s) := by simp [runOps]
    rw [hstep]
    exact ih _ (stepOp_handleInv o s h)

/-- C7: confirmed — at most one set of the four refresh tasks is
recorded at any time: along every sequence of lifecycle operations from
the initial state, the four handles are either all `None` or all tasks
of one generation; and calling `start_threads` while refresh tasks are
already running (positions and trackers handles set — which the guard
checks) only logs `Threads already running!` and returns, creating no
new tasks: never a silent double-start. -/
theorem c7_single_active_task_set :
    (∀ ops : List Op, handleInv (runOps ops initState) = true) ∧
    (∀ s : LState, s.authd = true → s.positions_thread.isSome = true →
      s.trackers_thread.isSome = true →
      start_threads s = { s with errlog := "Threads already running!" :: s.errlog }) := by
  constructor
  · intro ops
    exact runOps_handleInv ops initState rfl
  · intro s h h1 h2
    unfold start_threads
    rw [reqAuth_fst_auth _ _ h]
    unfold start_threads_body
    simp [h1, h2]

/-- Witness for C7: a concrete lifecycle run (login, restart, stop,
start), and the already-running guard on the concrete running session
`sAuth`. -/
theorem c7_single_active_task_set_witness :
    handleInv (runOps [Op.loginOp true "acct" [], Op.restartOp, Op.stopOp, Op.startOp]
      initState) = true ∧
    start_threads sAuth = { sAuth with errlog := "Threads already running!" :: sAuth.errlog } := by
  exact ⟨c7_single_active_task_set.1 _, c7_single_active_task_set.2 sAuth rfl rfl rfl⟩

end IGCLI
